import Mathlib

/-!
Shallow embedding of the iot-middleware-v5pro core: the V5008 binary
adapter (`V5008Parser`), the V6800 JSON adapter's RFID decoding
(`V6800Parser.parseLabelState`), the shadow store (`StateCache`) and the
reconciliation engine (`UnifyNormalizer`), together with theorems that
settle the frozen claims about them.

Modelling conventions:
* a binary `Buffer` is a `List Nat` of byte values;
* JavaScript's `undefined` is `Option.none` (or `JsVal.jsUndefined` where a field
  can also hold `null`); JS exceptions are `Except.error` values which the
  relevant top-level `try/catch` collapses;
* JS `Map` objects (insertion-ordered, key-identity) are association lists
  whose `set` replaces an existing key in place and appends a new key;
* machine arithmetic of JS bitwise operators (`<<`, `|`) is `Int`
  arithmetic reduced to signed 32-bit range by `toInt32`;
* numeric JS values are `Rat`; `payload.raw` diagnostic metadata, logging
  and the injected wall-clock timestamp (passed as a parameter) carry no
  logic and are not modelled beyond their presence.
-/

namespace IotMw

/-- A loosely-typed JavaScript field value: `undefined`, `null`, or a number. -/
inductive JsVal where
  | jsUndefined : JsVal
  | jsNull : JsVal
  | num : Rat → JsVal
deriving DecidableEq, Repr

/-- JS `ToInt32`: reduce an integer to the signed 32-bit range, as the
bitwise operators `<<` and `|` do. -/
def toInt32 (n : Int) : Int :=
  let m := n % 4294967296
  if m ≥ 2147483648 then m - 4294967296 else m

/-- `Buffer.readUInt8(i)`: the byte at `i`, throwing (`Except.error`) when
the index is out of range, as Node buffers do. -/
def readU8 (b : List Nat) (i : Nat) : Except String Nat :=
  match b.get? i with
  | some v => .ok v
  | none => .error "readUInt8 out of range"

/-- `Buffer.readUInt8` at a possibly negative (JS) index. -/
def readU8I (b : List Nat) (i : Int) : Except String Nat :=
  if i < 0 then .error "readUInt8 out of range" else readU8 b i.toNat

/-- One step of `value = (value << 8) | buffer.readUInt8(..)`: the JS
bitwise operators work on signed 32-bit integers, so the accumulated value
wraps through `toInt32`. -/
def beStep (v : Int) (b : Nat) : Int := toInt32 (v * 256 + b)

/-- `V5008Parser.readBigUIntBE(buffer, offset)` (4 bytes): returns 0 when
the 4 bytes run past the end of the buffer, otherwise folds the bytes
big-endian through the JS 32-bit bitwise pipeline.  Despite its name the
JS `<<`/`|` pipeline produces a *signed* 32-bit result. -/
def readBigUIntBE (b : List Nat) (off : Int) : Except String Int :=
  if off + 4 > (b.length : Int) then .ok 0
  else do
    let b0 ← readU8I b off
    let b1 ← readU8I b (off + 1)
    let b2 ← readU8I b (off + 2)
    let b3 ← readU8I b (off + 3)
    .ok (beStep (beStep (beStep (beStep 0 b0) b1) b2) b3)

/-- Big-endian signed-32-bit value of 4 in-range bytes, the pure value
`readBigUIntBE` yields when its reads are in bounds. -/
def beVal (b : List Nat) (off : Nat) : Int :=
  beStep (beStep (beStep (beStep 0 (b.getD off 0)) (b.getD (off + 1) 0)) (b.getD (off + 2) 0)) (b.getD (off + 3) 0)

/-- Uppercase hex digit of a value below 16. -/
def hexDigitU (n : Nat) : Char :=
  if n < 10 then Char.ofNat (48 + n) else Char.ofNat (55 + n)

/-- Lowercase hex digit of a value below 16. -/
def hexDigitL (n : Nat) : Char :=
  if n < 10 then Char.ofNat (48 + n) else Char.ofNat (87 + n)

/-- One byte as two uppercase hex characters (`toString('hex').toUpperCase()`). -/
def hexByteU (n : Nat) : String :=
  String.mk [hexDigitU (n / 16 % 16), hexDigitU (n % 16)]

/-- One byte as two lowercase hex characters (`toString(16).padStart(2,'0')`
for byte values). -/
def hexByteL (n : Nat) : String :=
  String.mk [hexDigitL (n / 16 % 16), hexDigitL (n % 16)]

/-- `buffer.subarray(i, j)` as a list of bytes (clamping, never throwing). -/
def byteSlice (b : List Nat) (i j : Nat) : List Nat :=
  (b.drop i).take (j - i)

/-- `buffer.subarray(i, j).toString('hex').toUpperCase()`. -/
def hexSlice (b : List Nat) (i j : Nat) : String :=
  String.join ((byteSlice b i j).map hexByteU)

/-- JS `String.prototype.split('/')` on character lists. -/
def splitSlashAux : List Char → List Char → List String
  | [], acc => [String.mk acc.reverse]
  | c :: rest, acc =>
    if c = '/' then String.mk acc.reverse :: splitSlashAux rest []
    else splitSlashAux rest (c :: acc)

/-- JS `topic.split('/')`. -/
def splitSlash (s : String) : List String := splitSlashAux s.data []

/-- JS template-literal rendering of a possibly-undefined string. -/
def optStr : Option String → String
  | some s => s
  | none => "undefined"

/-- JS template-literal rendering of a possibly-undefined number. -/
def optNatStr : Option Nat → String
  | some n => toString n
  | none => "undefined"

/-- JS truthiness of a string field (`undefined` and `''` are falsy). -/
def truthyStr : Option String → Bool
  | some s => !s.isEmpty
  | none => false

/-! ## Data model -/

/-- `TagState` value stored in a module shadow: `{ tagId, alarmStatus }`.
The tag id is `Option` because the V6800 adapter can produce `null`. -/
structure TagData where
  tagId : Option String
  alarmStatus : Nat
deriving DecidableEq, Repr

/-- A `ModuleShadow`: a JS `Map<uPos, TagData>` as an insertion-ordered
association list.  Keys are `Option Nat` because a patch-path item whose
`uPos` is `undefined` is used as a map key verbatim in JS. -/
abbrev TagMap := List (Option Nat × TagData)

/-- JS `map.has(k)`. -/
def mapHas (m : TagMap) (k : Option Nat) : Bool := m.any fun p => p.1 == k

/-- JS `map.set(k, v)`: replace in place when the key exists, append otherwise. -/
def mapSet (m : TagMap) (k : Option Nat) (v : TagData) : TagMap :=
  if mapHas m k then m.map fun p => if p.1 == k then (k, v) else p
  else m ++ [(k, v)]

/-- JS `map.delete(k)`. -/
def mapDelete (m : TagMap) (k : Option Nat) : TagMap :=
  m.filter fun p => p.1 != k

/-- `StateCache.cache`: a `Map` keyed by the string `` `${deviceId}:${modAddr}` ``. -/
abbrev Cache := List (String × TagMap)

/-- `StateCache._createKey(deviceId, modAddr)`. -/
def createKey (deviceId : Option String) (modAddr : Option Nat) : String :=
  optStr deviceId ++ ":" ++ optNatStr modAddr

/-- `StateCache.get`: the cached map, or `none` (JS `null`). -/
def cacheGet (c : Cache) (key : String) : Option TagMap :=
  match c with
  | [] => none
  | p :: rest => if p.1 == key then some p.2 else cacheGet rest key

/-- `StateCache.set`: replaces the entry wholesale (storing `new Map(tagDataMap)`,
a copy, which in this value model is the same list). -/
def cacheSet (c : Cache) (key : String) (m : TagMap) : Cache :=
  if c.any fun p => p.1 == key then c.map fun p => if p.1 == key then (key, m) else p
  else c ++ [(key, m)]

/-- A V5008 `LabelState` tag item `{ uPos, alarmStatus, tagId }`. -/
structure V5Item where
  uPos : Nat
  alarmStatus : Nat
  tagId : String
deriving DecidableEq, Repr

/-- A V6800 RFID tag item `{ uPos, alarmStatus, tagId, action }`; every
field except `alarmStatus` can be `undefined`/`null` in JS. -/
structure V6Item where
  uPos : Option Nat
  alarmStatus : Nat
  tagId : Option String
  action : Option String
deriving DecidableEq, Repr

/-- A V6800 RFID module block `{ modAddr, modId, items }`. -/
structure V6Module where
  modAddr : Option Nat
  modId : Option String
  items : Option (List V6Item)
deriving DecidableEq, Repr

/-- A sensor entry of a `TemHum`/`Noise` intermediate message.  The named
numeric fields are kept as a JS-object key/value list because the
normalizer looks them up by *dynamic* key name (`sensor[tempKey]`), and a
missing key reads as `undefined`. -/
structure SensorEntry where
  sensorAddr : Option Nat
  fields : List (String × JsVal)
deriving DecidableEq, Repr

/-- JS property read `sensor[key]` on a sensor entry. -/
def jsField (s : SensorEntry) (key : String) : JsVal :=
  match s.fields.find? fun p => p.1 == key with
  | some p => p.2
  | none => .jsUndefined

/-- Heartbeat metadata block. -/
structure Meta where
  voltage : JsVal
  current : JsVal
  mainPower : Bool
  backupPower : Bool
deriving DecidableEq, Repr

/-- A module record of a heartbeat / module-info / init message. -/
structure ModuleRec where
  modAddr : Option Nat
  modId : Option String
  uTotal : Option Nat
  fwVer : Option String
deriving DecidableEq, Repr

/-- Gateway identity block of a V6800 `INIT` message. -/
structure DeviceBlock where
  ip : Option String
  mac : Option String
deriving DecidableEq, Repr

/-- The protocol-neutral intermediate message.  Every field an adapter may
or may not set is `Option`; reading an absent field in JS yields
`undefined`. -/
structure IM where
  topic : Option String := none
  message : Option String := none
  deviceType : Option String := none
  deviceId : Option String := none
  messageType : Option String := none
  messageId : Option String := none
  ts : Option String := none
  modAddr : Option Nat := none
  modId : Option String := none
  uTotal : Option Nat := none
  onlineCount : Option Nat := none
  items : Option (List V5Item) := none
  data : Option (List V6Module) := none
  sensors : Option (List SensorEntry) := none
  meta : Option Meta := none
  result : Option String := none
  originalReq : Option String := none
  colorMap : Option (List Nat) := none
  doorState : Option String := none
  modules : Option (List ModuleRec) := none
  device : Option DeviceBlock := none
  model : Option String := none
  fwVer : Option String := none
  ip : Option String := none
  mask : Option String := none
  gatewayIp : Option String := none
  mac : Option String := none
deriving DecidableEq, Repr

/-- A snapshot payload item `{ uPos, tagId, alarmStatus }`. -/
structure SnapItem where
  uPos : Option Nat
  tagId : Option String
  alarmStatus : Nat
deriving DecidableEq, Repr

/-- The type-specific part of a unified event's `payload.value`. -/
inductive EvVal where
  | rfid (action : Option String) (tagId : Option String) (uPos : Option Nat) (alarmStatus : Nat)
  | snapshot (modId : Option String) (items : List SnapItem)
  | sync (reason : String)
  | scalar (v : JsVal)
  | lifecycle (status : String)
  | opResult (v : Nat)
  | devInfo (ip mac : Option String)
  | modInfo (modId : Option String) (uTotal : Option Nat) (fwVer : Option String)
deriving DecidableEq, Repr

/-- A canonical unified event (identity flattened; `payload.raw` metadata
not modelled). -/
structure UEvent where
  deviceId : Option String
  deviceType : String
  modAddr : Option Nat
  sensorAddr : Option Nat
  type : String
  ts : Option String
  key : String
  value : EvVal
deriving DecidableEq, Repr

/-! ## UnifyNormalizer

Each processor takes and returns the shadow cache; a JS exception thrown
mid-processor is an `Except.error` paired with the cache as mutated so
far, so the `try/catch` at the top of `normalize` preserves partial cache
writes exactly as the source does. -/

/-- The `SYS_RFID_EVENT` built for one shadow-diff entry or pass-through item. -/
def mkRfidEvent (devId : Option String) (devType : String) (modAddr : Option Nat)
    (ts : Option String) (action tagId : Option String) (uPos : Option Nat)
    (alarm : Nat) : UEvent :=
  { deviceId := devId, deviceType := devType, modAddr := modAddr, sensorAddr := uPos,
    type := "SYS_RFID_EVENT", ts := ts, key := "rfid_event",
    value := .rfid action tagId uPos alarm }

/-- The trailing `SYS_RFID_SNAPSHOT` carrying a full shadow. -/
def mkSnapshotEvent (devId : Option String) (devType : String) (modAddr : Option Nat)
    (ts : Option String) (modId : Option String) (shadow : TagMap) : UEvent :=
  { deviceId := devId, deviceType := devType, modAddr := modAddr, sensorAddr := some 0,
    type := "SYS_RFID_SNAPSHOT", ts := ts, key := "rfid_snapshot",
    value := .snapshot modId (shadow.map fun p => ⟨p.1, p.2.tagId, p.2.alarmStatus⟩) }

/-- The `currTags` map `_processV5008Rfid` builds from the inbound full
tag list: a JS `Map` keyed by `uPos`, a later duplicate position
overwriting an earlier one. -/
def buildTags (items : List V5Item) : TagMap :=
  items.foldl (fun m it => mapSet m (some it.uPos) ⟨some it.tagId, it.alarmStatus⟩) []

/-- `UnifyNormalizer._processV5008Rfid`: build `currTags` from the inbound
full tag list, diff it against the cached shadow, replace the shadow, and
append the snapshot. -/
def processV5008Rfid (c : Cache) (pd : IM) : Except String (List UEvent) × Cache :=
  match pd.items with
  | none => (.error "items is not iterable", c)
  | some items =>
    let key := createKey pd.deviceId pd.modAddr
    let prevTags : TagMap := (cacheGet c key).getD []
    let currTags : TagMap := buildTags items
    let detachedEvs := (prevTags.filter fun p => !mapHas currTags p.1).map fun p =>
      mkRfidEvent pd.deviceId "V5008" pd.modAddr pd.ts (some "detached") p.2.tagId p.1 p.2.alarmStatus
    let attachedEvs := (currTags.filter fun p => !mapHas prevTags p.1).map fun p =>
      mkRfidEvent pd.deviceId "V5008" pd.modAddr pd.ts (some "attached") p.2.tagId p.1 p.2.alarmStatus
    let c' := cacheSet c key currTags
    let snap := mkSnapshotEvent pd.deviceId "V5008" pd.modAddr pd.ts pd.modId currTags
    (.ok (detachedEvs ++ attachedEvs ++ [snap]), c')

/-- One module block of `UnifyNormalizer._processV6800Rfid`: pass-through
events plus either a `SYS_REQUIRE_SYNC` (cache miss, shadow untouched) or
a patched shadow and its snapshot. -/
def processV6800Module (c : Cache) (devId ts : Option String) (md : V6Module) :
    Except String (List UEvent) × Cache :=
  match md.items with
  | none => (.error "items is not iterable", c)
  | some items =>
    let key := createKey devId md.modAddr
    let passEvs := items.map fun it =>
      mkRfidEvent devId "V6800" md.modAddr ts it.action it.tagId it.uPos it.alarmStatus
    match cacheGet c key with
    | none =>
      let syncEv : UEvent :=
        { deviceId := devId, deviceType := "V6800", modAddr := md.modAddr, sensorAddr := some 0,
          type := "SYS_REQUIRE_SYNC", ts := ts, key := "require_sync",
          value := .sync "cache_miss" }
      (.ok (passEvs ++ [syncEv]), c)
    | some shadow =>
      let updated := items.foldl (fun m it =>
        if it.action = some "attached" then mapSet m it.uPos ⟨it.tagId, it.alarmStatus⟩
        else if it.action = some "detached" then mapDelete m it.uPos
        else m) shadow
      let c' := cacheSet c key updated
      (.ok (passEvs ++ [mkSnapshotEvent devId "V6800" md.modAddr ts md.modId updated]), c')

/-- The per-module loop of `_processV6800Rfid`, threading the cache and
stopping at the first thrown error with the cache as mutated so far. -/
def processV6800ModuleList (devId ts : Option String) :
    List V6Module → Cache → List UEvent → Except String (List UEvent) × Cache
  | [], c, acc => (.ok acc, c)
  | md :: rest, c, acc =>
    match processV6800Module c devId ts md with
    | (.ok evs, c') => processV6800ModuleList devId ts rest c' (acc ++ evs)
    | (.error e, c') => (.error e, c')

/-- `UnifyNormalizer._processV6800Rfid`. -/
def processV6800Rfid (c : Cache) (pd : IM) : Except String (List UEvent) × Cache :=
  match pd.data with
  | none => (.error "data is not iterable", c)
  | some mods => processV6800ModuleList pd.deviceId pd.ts mods c []

/-- `UnifyNormalizer._flattenTelemetry`: one `SYS_TELEMETRY` per sensor
field that is not strictly `null` under a *dynamic* key lookup
(`sensor[tempKey]`), so an `undefined` field still emits an event. -/
def flattenTelemetry (pd : IM) (devType : String) (tempKey humKey : String) : List UEvent :=
  match pd.sensors with
  | none => []
  | some sensors =>
    sensors.foldl (fun acc sensor =>
      let tv := jsField sensor tempKey
      let hv := jsField sensor humKey
      if tv = .jsNull ∧ hv = .jsNull then acc
      else
        acc ++
        (if tv ≠ .jsNull then
          [{ deviceId := pd.deviceId, deviceType := devType, modAddr := pd.modAddr,
             sensorAddr := sensor.sensorAddr, type := "SYS_TELEMETRY", ts := pd.ts,
             key := tempKey, value := .scalar tv }] else []) ++
        (if hv ≠ .jsNull then
          [{ deviceId := pd.deviceId, deviceType := devType, modAddr := pd.modAddr,
             sensorAddr := sensor.sensorAddr, type := "SYS_TELEMETRY", ts := pd.ts,
             key := humKey, value := .scalar hv }] else [])) []

/-- `UnifyNormalizer._flattenNoiseTelemetry`. -/
def flattenNoiseTelemetry (pd : IM) (devType : String) : List UEvent :=
  match pd.sensors with
  | none => []
  | some sensors =>
    sensors.foldl (fun acc sensor =>
      let nv := jsField sensor "noise"
      if nv = .jsNull then acc
      else
        acc ++
        [{ deviceId := pd.deviceId, deviceType := devType, modAddr := pd.modAddr,
           sensorAddr := sensor.sensorAddr, type := "SYS_TELEMETRY", ts := pd.ts,
           key := "noise", value := .scalar nv }]) []

/-- `UnifyNormalizer._processHeartbeat`. -/
def processHeartbeat (pd : IM) (devType : String) : List UEvent :=
  match pd.meta with
  | none => []
  | some meta =>
    (if meta.voltage ≠ .jsUndefined then
      [{ deviceId := pd.deviceId, deviceType := devType, modAddr := some 0,
         sensorAddr := some 0, type := "SYS_TELEMETRY", ts := pd.ts,
         key := "voltage", value := .scalar meta.voltage }] else []) ++
    (if meta.current ≠ .jsUndefined then
      [{ deviceId := pd.deviceId, deviceType := devType, modAddr := some 0,
         sensorAddr := some 0, type := "SYS_TELEMETRY", ts := pd.ts,
         key := "current", value := .scalar meta.current }] else []) ++
    [{ deviceId := pd.deviceId, deviceType := devType, modAddr := some 0,
       sensorAddr := some 0, type := "SYS_LIFECYCLE", ts := pd.ts,
       key := "device_status",
       value := .lifecycle (if meta.mainPower then "online" else "backup_power") }]

/-- `UnifyNormalizer._createDoorStateObject`. -/
def createDoorStateObject (pd : IM) (devType : String) : List UEvent :=
  [{ deviceId := pd.deviceId, deviceType := devType, modAddr := pd.modAddr,
     sensorAddr := some 0, type := "SYS_STATE_CHANGE", ts := pd.ts,
     key := "door_state",
     value := .opResult (if pd.doorState = some "01" then 1 else 0) }]

/-- `UnifyNormalizer._createResponseObject`. -/
def createResponseObject (pd : IM) (devType : String) : List UEvent :=
  [{ deviceId := pd.deviceId, deviceType := devType, modAddr := some 0,
     sensorAddr := some 0, type := "SYS_STATE_CHANGE", ts := pd.ts,
     key := "operation_result",
     value := .opResult (if pd.result = some "Success" then 1 else 0) }]

/-- `UnifyNormalizer._splitV6800Init`. -/
def splitV6800Init (pd : IM) (devType : String) : List UEvent :=
  (match pd.device with
   | some device =>
     [{ deviceId := pd.deviceId, deviceType := devType, modAddr := some 0,
        sensorAddr := some 0, type := "SYS_DEVICE_INFO", ts := pd.ts,
        key := "device_info", value := .devInfo device.ip device.mac }]
   | none => []) ++
  (match pd.modules with
   | some modules =>
     modules.map fun m =>
       { deviceId := pd.deviceId, deviceType := devType, modAddr := m.modAddr,
         sensorAddr := some 0, type := "SYS_DEVICE_INFO", ts := pd.ts,
         key := "module_info", value := .modInfo m.modId m.uTotal m.fwVer }
   | none => [])

/-- `UnifyNormalizer._processV5008`: the V5008 message-type switch. -/
def processV5008 (c : Cache) (pd : IM) : Except String (List UEvent) × Cache :=
  match pd.messageType with
  | some "OpeAck" =>
    if truthyStr pd.result then (.ok (createResponseObject pd "V5008"), c)
    else if pd.doorState ≠ none then (.ok (createDoorStateObject pd "V5008"), c)
    else (.ok [], c)
  | some "LabelState" => processV5008Rfid c pd
  | some "TemHum" => (.ok (flattenTelemetry pd "V5008" "temperature" "humidity"), c)
  | some "Noise" => (.ok (flattenNoiseTelemetry pd "V5008"), c)
  | some "HeartBeat" => (.ok (processHeartbeat pd "V5008"), c)
  | some "HEARTBEAT" => (.ok (processHeartbeat pd "V5008"), c)
  | _ => (.ok [], c)

/-- `UnifyNormalizer._processV6800`: the V6800 message-type switch. -/
def processV6800 (c : Cache) (pd : IM) : Except String (List UEvent) × Cache :=
  match pd.messageType with
  | some "LABEL_STATE" => processV6800Rfid c pd
  | some "TEM_HUM" => (.ok (flattenTelemetry pd "V6800" "temperature" "humidity"), c)
  | some "DOOR_STATE" => (.ok (createDoorStateObject pd "V6800"), c)
  | some "INIT" => (.ok (splitV6800Init pd "V6800"), c)
  | some "OPE_ACK" => (.ok (createResponseObject pd "V6800"), c)
  | some "HEARTBEAT" => (.ok (processHeartbeat pd "V6800"), c)
  | _ => (.ok [], c)

/-- The body of `UnifyNormalizer.normalize` before its `try/catch`:
falsy or unknown device types yield an empty sequence. -/
def normalizeE (pd : Option IM) (c : Cache) : Except String (List UEvent) × Cache :=
  match pd with
  | none => (.ok [], c)
  | some pd =>
    if ¬truthyStr pd.deviceType then (.ok [], c)
    else match pd.deviceType with
      | some "V5008" => processV5008 c pd
      | some "V6800" => processV6800 c pd
      | _ => (.ok [], c)

/-- `UnifyNormalizer.normalize`: the catch-all converts any thrown error
into an empty event sequence, never re-raising. -/
def normalize (pd : Option IM) (c : Cache) : List UEvent × Cache :=
  match normalizeE pd c with
  | (.ok evs, c') => (evs, c')
  | (.error _, c') => ([], c')

/-! ## V5008Parser (binary adapter)

The parser runs inside one `try/catch`; every `Buffer.readUInt8` that can
go out of range is an `Except` read.  Reads under a loop's bounds guard
are in range whenever the guard has passed, exactly as in the source. -/

/-- `V5008Parser.parseSignedDecimal`: `(signed int byte, fraction byte)`;
the `(0,0)` pair decodes to `null`, as does an out-of-range offset. -/
def parseSignedDecimal (b : List Nat) (off : Nat) : JsVal :=
  if off + 1 ≥ b.length then .jsNull
  else
    let raw := b.getD off 0
    let intPart : Int := if raw ≥ 128 then (raw : Int) - 256 else raw
    let fracPart := b.getD (off + 1) 0
    if intPart = 0 ∧ fracPart = 0 then .jsNull
    else
      let v : Rat := |(intPart : Rat)| + (fracPart : Rat) / 100
      .num (if intPart < 0 then -v else v)

/-- `V5008Parser.parseIpAddress`. -/
def parseIpAddress (b : List Nat) (off : Nat) : String :=
  if off + 3 ≥ b.length then "0.0.0.0"
  else String.intercalate "." [toString (b.getD off 0), toString (b.getD (off + 1) 0),
    toString (b.getD (off + 2) 0), toString (b.getD (off + 3) 0)]

/-- The module-record loop of `parseHeartbeat`: up to 10 six-byte records,
breaking when `offset + 9` would pass the message-id region (the source's
guard really is `+ 9`, not the record size), keeping only addresses 1–5. -/
def hbLoop (b : List Nat) : Nat → Nat → Except String (List ModuleRec)
  | 0, _ => .ok []
  | n + 1, offset =>
    if (offset : Int) + 9 > (b.length : Int) - 4 then .ok []
    else do
      let modAddr ← readU8 b offset
      let modId ← readBigUIntBE b ((offset : Int) + 1)
      let uTotal ← readU8 b (offset + 5)
      let rest ← hbLoop b n (offset + 6)
      if 1 ≤ modAddr ∧ modAddr ≤ 5 then
        .ok (⟨some modAddr, some (toString modId), some uTotal, none⟩ :: rest)
      else .ok rest

/-- `V5008Parser.parseHeartbeat`.  The power metadata is the source's
fixed placeholder block. -/
def parseHeartbeat (b : List Nat) (base : IM) (messageId : String) : Except String IM := do
  let modules ← hbLoop b 10 1
  .ok { base with
        messageId := some messageId, modules := some modules,
        meta := some ⟨.num (25/2), .num (4/5), true, false⟩ }

/-- `V5008Parser.parseDoorState`. -/
def parseDoorState (b : List Nat) (base : IM) (messageId : String) : Except String IM := do
  let modAddr ← readU8 b 1
  let modId ← readBigUIntBE b 2
  let doorByte ← readU8 b 6
  .ok { base with
        messageId := some messageId, modAddr := some modAddr,
        modId := some (toString modId), doorState := some (hexByteL doorByte) }

/-- The tag-record loop of `parseLabelState`: `onlineCount` six-byte
records, breaking before the trailing 4-byte message-id region. -/
def labelLoop (b : List Nat) : Nat → Nat → Except String (List V5Item)
  | 0, _ => .ok []
  | n + 1, offset =>
    if (offset : Int) + 6 > (b.length : Int) - 4 then .ok []
    else do
      let uPos ← readU8 b offset
      let alarmStatus ← readU8 b (offset + 1)
      let tagId := hexSlice b (offset + 2) (offset + 6)
      let rest ← labelLoop b n (offset + 6)
      .ok (⟨uPos, alarmStatus, tagId⟩ :: rest)

/-- `V5008Parser.parseLabelState`. -/
def parseLabelState (b : List Nat) (base : IM) : Except String IM := do
  let modAddr ← readU8 b 0
  let modId ← readBigUIntBE b 1
  let _reserved ← readU8 b 5
  let uTotal ← readU8 b 6
  let onlineCount ← readU8 b 7
  let items ← labelLoop b onlineCount 8
  let mid ← readBigUIntBE b ((b.length : Int) - 4)
  .ok { base with
        messageId := some (toString mid), modAddr := some modAddr,
        modId := some (toString modId), uTotal := some uTotal,
        onlineCount := some onlineCount, items := some items }

/-- The sensor-slot loop of `parseTemHum`: six five-byte slots, a slot
outside the valid address range decoding to explicit `null` values. -/
def temHumLoop (b : List Nat) : Nat → Nat → Except String (List SensorEntry)
  | 0, _ => .ok []
  | n + 1, offset =>
    if (offset : Int) + 5 > (b.length : Int) - 4 then .ok []
    else do
      let sensorAddr ← readU8 b offset
      let entry : SensorEntry :=
        if 0x0A ≤ sensorAddr ∧ sensorAddr ≤ 0x0F then
          ⟨some sensorAddr, [("temp", parseSignedDecimal b (offset + 1)),
                             ("hum", parseSignedDecimal b (offset + 3))]⟩
        else ⟨some sensorAddr, [("temp", .jsNull), ("hum", .jsNull)]⟩
      let rest ← temHumLoop b n (offset + 5)
      .ok (entry :: rest)

/-- `V5008Parser.parseTemHum`. -/
def parseTemHum (b : List Nat) (base : IM) : Except String IM := do
  let modAddr ← readU8 b 0
  let modId ← readBigUIntBE b 1
  let sensors ← temHumLoop b 6 5
  let mid ← readBigUIntBE b ((b.length : Int) - 4)
  .ok { base with
        messageId := some (toString mid), modAddr := some modAddr,
        modId := some (toString modId), sensors := some sensors }

/-- The sensor-slot loop of `parseNoise`: three three-byte slots. -/
def noiseLoop (b : List Nat) : Nat → Nat → Except String (List SensorEntry)
  | 0, _ => .ok []
  | n + 1, offset =>
    if (offset : Int) + 3 > (b.length : Int) - 4 then .ok []
    else do
      let sensorAddr ← readU8 b offset
      let entry : SensorEntry :=
        if 0x10 ≤ sensorAddr ∧ sensorAddr ≤ 0x12 then
          ⟨some sensorAddr, [("noise", parseSignedDecimal b (offset + 1))]⟩
        else ⟨some sensorAddr, [("noise", .jsNull)]⟩
      let rest ← noiseLoop b n (offset + 3)
      .ok (entry :: rest)

/-- `V5008Parser.parseNoise`. -/
def parseNoise (b : List Nat) (base : IM) : Except String IM := do
  let modAddr ← readU8 b 0
  let modId ← readBigUIntBE b 1
  let sensors ← noiseLoop b 3 5
  let mid ← readBigUIntBE b ((b.length : Int) - 4)
  .ok { base with
        messageId := some (toString mid), modAddr := some modAddr,
        modId := some (toString modId), sensors := some sensors }

/-- The color-byte loop of `parseAAResponse` as the byte span it reads:
from the end of the echoed request up to the message-id region. -/
def aaColorBytes (b : List Nat) (reqLength : Nat) : List Nat :=
  byteSlice b (6 + reqLength) (b.length - 4)

/-- `V5008Parser.parseAAResponse`: result code at byte 5 (`0xA1` means
`Success`), echoed request of `length - 10` bytes from byte 6, and a color
map when the echoed request starts with `E4`.  (The computed `deviceId`
local of the source is dead and not re-assigned to the result.) -/
def parseAAResponse (b : List Nat) (base : IM) (messageId : String) : Except String IM := do
  let _deviceId ← readBigUIntBE b 1
  let resultCode ← readU8 b 5
  let resultText := if resultCode = 0xA1 then "Success" else "Failure"
  let reqLength := b.length - 10
  let originalReq := hexSlice b 6 (6 + reqLength)
  let withReq := { base with
        messageId := some messageId, result := some resultText,
                   originalReq := some originalReq }
  if originalReq.data.take 2 = ['E', '4'] then
    .ok { withReq with
        colorMap := some (aaColorBytes b reqLength) }
  else .ok withReq

/-- `V5008Parser.parseDeviceInfoResponse` (no read in it can throw: the
slices clamp and the IP reads are guarded). -/
def parseDeviceInfoResponse (b : List Nat) (base : IM) (messageId : String) :
    Except String IM :=
  let model := String.mk ((byteSlice b 2 6).map fun v => Char.ofNat (v % 256))
  let fwVer := toString (beVal b 6)
  let mac := String.intercalate ":" ((byteSlice b 22 28).map hexByteU)
  .ok { base with
        messageId := some messageId, model := some model, fwVer := some fwVer,
        ip := some (parseIpAddress b 10), mask := some (parseIpAddress b 14),
        gatewayIp := some (parseIpAddress b 18), mac := some mac }

/-- The record loop of `parseModuleInfoResponse`: five-byte records until
the message-id region; fuel bounds the recursion and never runs out
before the guard fails because each step consumes five bytes. -/
def miLoop (b : List Nat) : Nat → Nat → List ModuleRec
  | 0, _ => []
  | fuel + 1, offset =>
    if (offset : Int) + 5 ≤ (b.length : Int) - 4 then
      ⟨some (b.getD offset 0), none, none, some (toString (beVal b (offset + 1)))⟩
        :: miLoop b fuel (offset + 5)
    else []

/-- `V5008Parser.parseModuleInfoResponse`. -/
def parseModuleInfoResponse (b : List Nat) (base : IM) (messageId : String) :
    Except String IM :=
  .ok { base with
        messageId := some messageId, modules := some (miLoop b b.length 2) }

/-- `V5008Parser.parseOpeAck`: reads the message id (last 4 bytes) and
dispatches on the leading byte; unknown headers yield JS `null`. -/
def parseOpeAck (b : List Nat) (base : IM) : Except String (Option IM) := do
  let header ← readU8 b 0
  let mid ← readBigUIntBE b ((b.length : Int) - 4)
  let messageId := toString mid
  if header = 0xCC ∨ header = 0xCB then some <$> parseHeartbeat b base messageId
  else if header = 0xBA then some <$> parseDoorState b base messageId
  else if header = 0xBB then some <$> parseLabelState (b.drop 1) base
  else if header = 0xAA then some <$> parseAAResponse b base messageId
  else if header = 0xEF then
    if b.length ≥ 2 then do
      let subHeader ← readU8 b 1
      if subHeader = 0x01 then some <$> parseDeviceInfoResponse b base messageId
      else if subHeader = 0x02 then some <$> parseModuleInfoResponse b base messageId
      else .ok none
    else .ok none
  else .ok none

/-- The header-byte to message-type mapping at the top of
`V5008Parser.parse` (`none` is an absent topic suffix). -/
def v5008MessageType (topicSuffix : Option String) (b : List Nat) : Option String :=
  match b.get? 0 with
  | some 0xCC => some "HEARTBEAT"
  | some 0xCB => some "HEARTBEAT"
  | some 0xBB => some "LABEL_STATE"
  | some 0xBA => some "DOOR_STATE"
  | some 0xAA => some "OPE_ACK"
  | _ => topicSuffix

/-- The body of `V5008Parser.parse` before its `try/catch`; `ts` is the
wall-clock ISO timestamp the source injects at decode time. -/
def v5008ParseE (topic ts : String) (b : List Nat) : Except String (Option IM) :=
  let parts := splitSlash topic
  let deviceId := parts.get? 1
  let topicSuffix := parts.get? 2
  let messageType := v5008MessageType topicSuffix b
  let base : IM := { topic := some topic, message := some (hexSlice b 0 b.length),
                     deviceType := some "V5008", deviceId := deviceId,
                     messageType := messageType, ts := some ts }
  match messageType with
  | some "HEARTBEAT" => parseOpeAck b base
  | some "LABEL_STATE" => some <$> parseLabelState b base
  | some "DOOR_STATE" => parseOpeAck b base
  | some "OPE_ACK" => parseOpeAck b base
  | some "TemHum" => some <$> parseTemHum b base
  | some "Noise" => some <$> parseNoise b base
  | _ => .ok none

/-- `V5008Parser.parse`: the `try/catch` turns any thrown range error into
JS `null`. -/
def v5008Parse (topic ts : String) (b : List Nat) : Option IM :=
  match v5008ParseE topic ts b with
  | .ok r => r
  | .error _ => none

/-! ## V6800Parser.parseLabelState (JSON adapter, RFID path) -/

/-- A raw V6800 tag record (`u_data` entry) as the fields
`parseLabelState` reads from the parsed JSON. -/
structure RawTag where
  u_index : Option Nat
  old_state : Option Int
  new_state : Option Int
  warning : Option Nat
  tag_code : Option String
deriving DecidableEq, Repr

/-- A raw V6800 module block as the fields `parseLabelState` reads. -/
structure RawModule where
  host_gateway_port_index : Option Nat
  index : Option Nat
  extend_module_sn : Option String
  module_id : Option String
  u_data : Option (List RawTag)
deriving DecidableEq, Repr

/-- The `data` array of a raw V6800 `LabelState` JSON document. -/
structure RawLabelJson where
  data : Option (List RawModule)
deriving DecidableEq, Repr

/-- The action-inference block of `V6800Parser.parseLabelState`: only the
transitions `(old=0,new=1)` and `(old=1,new=0)` produce an action and only
when both flags are present; everything else stays `null`. -/
def inferAction (oldState newState : Option Int) : Option String :=
  match oldState, newState with
  | some o, some n =>
    if n = 1 ∧ o = 0 then some "attached"
    else if n = 0 ∧ o = 1 then some "detached"
    else none
  | _, _ => none

/-- JS `a || b` over possibly-undefined numbers (`0` is falsy). -/
def jsOrNat (a b : Option Nat) : Option Nat :=
  match a with
  | some n => if n = 0 then b else some n
  | none => b

/-- JS `(a || b || '').toString()` over possibly-undefined strings
(`''` is falsy). -/
def jsOrStr (a b : Option String) : String :=
  match a, b with
  | some s, _ => if s.isEmpty then jsOrStr2 b else s
  | none, _ => jsOrStr2 b
where jsOrStr2 : Option String → String
  | some s => if s.isEmpty then "" else s
  | none => ""

/-- JS `tagData.tag_code || tagData.tag_code || null` (an empty string
falls through to `null`). -/
def jsTagCode (a : Option String) : Option String :=
  match a with
  | some s => if s.isEmpty then none else some s
  | none => none

/-- One `u_data` entry of `V6800Parser.parseLabelState`. -/
def v6800ParseTag (t : RawTag) : V6Item :=
  { uPos := t.u_index, alarmStatus := t.warning.getD 0,
    tagId := jsTagCode t.tag_code,
    action := inferAction t.old_state t.new_state }

/-- One module block of `V6800Parser.parseLabelState`. -/
def v6800ParseModule (md : RawModule) : V6Module :=
  { modAddr := jsOrNat md.host_gateway_port_index md.index,
    modId := some (jsOrStr md.extend_module_sn md.module_id),
    items := some ((md.u_data.getD []).map v6800ParseTag) }

/-- `V6800Parser.parseLabelState`: rebuild `result.data` from the raw
JSON's `data` array (a missing or non-array `data`/`u_data` contributes
nothing). -/
def v6800ParseLabelState (raw : RawLabelJson) (base : IM) : IM :=
  { base with
    data := some ((raw.data.getD []).map v6800ParseModule) }

/-! ## Lemmas about the shadow maps and the cache -/

/-- The key list of a shadow map. -/
def keysOf (m : TagMap) : List (Option Nat) := m.map fun p => p.1

/-- A shadow map with no repeated key (every map a JS `Map` produces). -/
def nodupKeys (m : TagMap) : Prop := (keysOf m).Nodup

theorem mapHas_iff_mem {m : TagMap} {u : Option Nat} :
    mapHas m u = true ↔ u ∈ keysOf m := by
  unfold mapHas keysOf
  rw [List.any_eq_true]
  constructor
  · rintro ⟨p, hp, he⟩
    exact List.mem_map.mpr ⟨p, hp, beq_iff_eq.mp he⟩
  · intro hu
    rcases List.mem_map.mp hu with ⟨p, hp, he⟩
    exact ⟨p, hp, beq_iff_eq.mpr he⟩

theorem mapHas_of_mem {m : TagMap} {p : Option Nat × TagData} (hp : p ∈ m) :
    mapHas m p.1 = true :=
  mapHas_iff_mem.mpr (List.mem_map_of_mem _ hp)

theorem mapHas_cons {p : Option Nat × TagData} {rest : TagMap} {u : Option Nat} :
    mapHas (p :: rest) u = ((p.1 == u) || mapHas rest u) := by
  simp [mapHas]

theorem keysOf_mapSet (m : TagMap) (k : Option Nat) (v : TagData) :
    keysOf (mapSet m k v) = if mapHas m k then keysOf m else keysOf m ++ [k] := by
  by_cases h : mapHas m k
  · simp only [mapSet, h, if_true, keysOf, List.map_map]
    refine List.map_congr_left fun p _ => ?_
    by_cases hk : p.1 == k
    · simp [hk, beq_iff_eq.mp hk]
    · simp [Function.comp, hk]
  · simp [mapSet, h, keysOf]

theorem mapHas_mapSet {m : TagMap} {k u : Option Nat} {v : TagData} :
    mapHas (mapSet m k v) u = true ↔ (mapHas m u = true ∨ k = u) := by
  rw [mapHas_iff_mem, keysOf_mapSet]
  by_cases h : mapHas m k
  · rw [if_pos h, ← mapHas_iff_mem]
    constructor
    · exact Or.inl
    · rintro (hm | rfl)
      · exact hm
      · exact h
  · rw [if_neg h, List.mem_append, List.mem_singleton, ← mapHas_iff_mem]
    constructor
    · rintro (hm | rfl)
      · exact Or.inl hm
      · exact Or.inr rfl
    · rintro (hm | rfl)
      · exact Or.inl hm
      · exact Or.inr rfl

theorem nodupKeys_mapSet {m : TagMap} (h : nodupKeys m) (k : Option Nat) (v : TagData) :
    nodupKeys (mapSet m k v) := by
  unfold nodupKeys
  rw [keysOf_mapSet]
  by_cases hk : mapHas m k
  · rwa [if_pos hk]
  · rw [if_neg hk]
    refine List.Nodup.append h (List.nodup_singleton k) ?_
    intro a ha hb
    rw [List.mem_singleton] at hb
    subst hb
    exact hk (mapHas_iff_mem.mpr ha)

theorem nodupKeys_buildTags_from {m : TagMap} (h : nodupKeys m) (items : List V5Item) :
    nodupKeys (items.foldl (fun m it => mapSet m (some it.uPos) ⟨some it.tagId, it.alarmStatus⟩) m) := by
  induction items generalizing m with
  | nil => exact h
  | cons it rest ih => exact ih (nodupKeys_mapSet h _ _)

theorem nodupKeys_buildTags (items : List V5Item) : nodupKeys (buildTags items) :=
  nodupKeys_buildTags_from (by simp [nodupKeys, keysOf]) items

theorem countP_key_of_not_mem {m : TagMap} {u : Option Nat}
    (h : ¬ mapHas m u = true) (f : Option Nat → Bool) :
    (m.countP fun p => (p.1 == u) && f p.1) = 0 := by
  rw [List.countP_eq_zero]
  intro p hp hpe
  rw [Bool.and_eq_true] at hpe
  exact h (beq_iff_eq.mp hpe.1 ▸ mapHas_of_mem hp)

theorem countP_key_filter {m : TagMap} (h : nodupKeys m) (u : Option Nat)
    (f : Option Nat → Bool) :
    ((m.filter fun p => f p.1).countP fun p => p.1 == u)
      = if mapHas m u ∧ f u then 1 else 0 := by
  rw [List.countP_filter]
  induction m with
  | nil => simp [mapHas]
  | cons p rest ih =>
    have h' : (p.1 :: keysOf rest).Nodup := h
    have hnd := List.nodup_cons.mp h'
    rw [List.countP_cons]
    by_cases hk : p.1 = u
    · subst hk
      have hzero : (rest.countP fun q => (q.1 == p.1) && f q.1) = 0 :=
        countP_key_of_not_mem (fun hm => hnd.1 (mapHas_iff_mem.mp hm)) f
      have hhas : mapHas (p :: rest) p.1 = true := mapHas_of_mem (List.mem_cons_self p rest)
      rw [hzero, hhas]
      by_cases hf : f p.1
      · simp [hf]
      · simp [hf]
    · have hhead : ((p.1 == u) && f p.1) = false := by
        simp [beq_iff_eq, hk]
      rw [hhead, ih hnd.2, mapHas_cons]
      simp [beq_iff_eq, hk]

theorem cacheGet_map_replace {key : String} {m : TagMap} :
    ∀ (c : Cache), c.any (fun p => p.1 == key) = true →
      cacheGet (c.map fun p => if p.1 == key then (key, m) else p) key = some m := by
  intro c
  induction c with
  | nil => intro h; cases h
  | cons r rest ih =>
    intro h
    by_cases hr : r.1 == key
    · simp only [List.map_cons, if_pos hr, cacheGet]
      rw [if_pos (by simp)]
    · have hrest : rest.any (fun p => p.1 == key) = true := by
        rcases List.any_eq_true.mp h with ⟨q, hq, he⟩
        rcases List.mem_cons.mp hq with rfl | hmem
        · exact absurd he hr
        · exact List.any_eq_true.mpr ⟨q, hmem, he⟩
      simp only [List.map_cons, if_neg hr, cacheGet]
      exact ih hrest

theorem cacheGet_append_new {key : String} {m : TagMap} :
    ∀ (c : Cache), c.any (fun p => p.1 == key) = false →
      cacheGet (c ++ [(key, m)]) key = some m := by
  intro c
  induction c with
  | nil =>
    intro _
    simp [cacheGet]
  | cons r rest ih =>
    intro h
    rw [List.any_cons, Bool.or_eq_false_iff] at h
    rw [List.cons_append]
    show (if r.1 == key then some r.2 else cacheGet (rest ++ [(key, m)]) key) = some m
    rw [if_neg (by simp [h.1]), ih h.2]

theorem cacheGet_cacheSet_self (c : Cache) (key : String) (m : TagMap) :
    cacheGet (cacheSet c key m) key = some m := by
  unfold cacheSet
  by_cases h : c.any fun p => p.1 == key
  · rw [if_pos h]
    exact cacheGet_map_replace c h
  · rw [if_neg h]
    exact cacheGet_append_new c (by rwa [Bool.not_eq_true] at h)

/-! ## Reader lemmas: the bounds under which `Except` reads succeed -/

theorem readU8_ok {b : List Nat} {i : Nat} (h : i < b.length) :
    readU8 b i = .ok (b.getD i 0) := by
  unfold readU8
  cases hx : b.get? i with
  | none => exact absurd (List.get?_eq_none.mp hx) (by omega)
  | some v =>
    have : b.getD i 0 = v := by rw [List.getD_eq_getElem?_getD, ← List.get?_eq_getElem?, hx]; rfl
    rw [this]

theorem readU8I_ok {b : List Nat} {i : Int} (h0 : 0 ≤ i) (h : i.toNat < b.length) :
    readU8I b i = .ok (b.getD i.toNat 0) := by
  unfold readU8I
  rw [if_neg (by omega)]
  exact readU8_ok h

theorem readBigUIntBE_nat_ok {b : List Nat} (off : Nat) (h : off + 4 ≤ b.length) :
    readBigUIntBE b (off : Int) = .ok (beVal b off) := by
  have e1 : ((off : Int) + 1).toNat = off + 1 := by omega
  have e2 : ((off : Int) + 2).toNat = off + 2 := by omega
  have e3 : ((off : Int) + 3).toNat = off + 3 := by omega
  unfold readBigUIntBE
  rw [if_neg (by omega)]
  rw [readU8I_ok (by omega) (by simp; omega)]
  rw [readU8I_ok (by omega) (by rw [e1]; omega)]
  rw [readU8I_ok (by omega) (by rw [e2]; omega)]
  rw [readU8I_ok (by omega) (by rw [e3]; omega)]
  simp only [Int.toNat_natCast, e1, e2, e3]
  rfl

/-! ## Claim theorems -/

/-- The concrete raw V6800 RFID JSON of the spec's concrete case B: one
module block with two tag records, `(old=0,new=1)` and `(old=1,new=0)`. -/
def rawCaseB : RawLabelJson :=
  ⟨some [⟨some 2, none, some "3963041727", none,
    some [⟨some 3, some 0, some 1, some 0, some "DD23B0B4"⟩,
          ⟨some 5, some 1, some 0, some 0, some "DD567890"⟩]⟩]⟩

/-- C7: a V6800 tag record carrying both an old-state and a new-state flag
decodes to action `attached` exactly for `(old=0,new=1)`, `detached`
exactly for `(old=1,new=0)`, and to no action (`null`) for every other
combination; on the concrete case-B document the two records decode to
`attached` and `detached` respectively. -/
theorem c7_rfid_action_inference :
    (∀ o n : Int, inferAction (some o) (some n)
        = if o = 0 ∧ n = 1 then some "attached"
          else if o = 1 ∧ n = 0 then some "detached"
          else none)
    ∧ ((v6800ParseLabelState rawCaseB {}).data.getD []).map
        (fun md => (md.items.getD []).map V6Item.action)
      = [[some "attached", some "detached"]] := by
  constructor
  · intro o n
    simp only [inferAction]
    split_ifs <;> first | rfl | tauto
  · rfl

/-- C9: an `OPE_ACK` (0xAA) frame decodes `Success` exactly when the
result-code byte is 0xA1 (`Failure` otherwise); the echoed original
request is the verbatim uppercase-hex span of `length - 10` bytes starting
at byte 6, which reaches exactly to the message-id region; and when that
span begins with `E4` the trailing bytes up to the message-id region (an
empty region, since the echo already reaches it) become the color list. -/
theorem c9_ope_ack_decode (b : List Nat) (base : IM) (mid : String) (h : 10 ≤ b.length) :
    ∃ im, parseAAResponse b base mid = .ok im ∧
      im.result = some (if b.getD 5 0 = 0xA1 then "Success" else "Failure") ∧
      im.originalReq = some (hexSlice b 6 (6 + (b.length - 10))) ∧
      6 + (b.length - 10) = b.length - 4 ∧
      ((hexSlice b 6 (6 + (b.length - 10))).data.take 2 = ['E', '4'] →
        im.colorMap = some (aaColorBytes b (b.length - 10)) ∧
        aaColorBytes b (b.length - 10) = []) ∧
      ((hexSlice b 6 (6 + (b.length - 10))).data.take 2 ≠ ['E', '4'] →
        im.colorMap = base.colorMap) := by
  have h1 : readBigUIntBE b 1 = .ok (beVal b 1) := by
    have := readBigUIntBE_nat_ok (b := b) 1 (by omega)
    simpa using this
  have h5 : readU8 b 5 = .ok (b.getD 5 0) := readU8_ok (by omega)
  have hreach : 6 + (b.length - 10) = b.length - 4 := by omega
  have hempty : aaColorBytes b (b.length - 10) = [] := by
    unfold aaColorBytes byteSlice
    rw [hreach]
    simp
  have hsplit : parseAAResponse b base mid =
      if (hexSlice b 6 (6 + (b.length - 10))).data.take 2 = ['E', '4'] then
        .ok { base with
              messageId := some mid,
              result := some (if b.getD 5 0 = 0xA1 then "Success" else "Failure"),
              originalReq := some (hexSlice b 6 (6 + (b.length - 10))),
              colorMap := some (aaColorBytes b (b.length - 10)) }
      else
        .ok { base with
              messageId := some mid,
              result := some (if b.getD 5 0 = 0xA1 then "Success" else "Failure"),
              originalReq := some (hexSlice b 6 (6 + (b.length - 10))) } := by
    unfold parseAAResponse
    rw [h1, h5]
    rfl
  by_cases hE : (hexSlice b 6 (6 + (b.length - 10))).data.take 2 = ['E', '4']
  · rw [hsplit, if_pos hE]
    exact ⟨_, rfl, rfl, rfl, hreach, fun _ => ⟨rfl, hempty⟩, fun hne => absurd hE hne⟩
  · rw [hsplit, if_neg hE]
    exact ⟨_, rfl, rfl, rfl, hreach, fun he => absurd he hE, fun _ => rfl⟩

/-- Witness for C9 at a concrete 12-byte frame. -/
theorem c9_ope_ack_decode_witness :
    10 ≤ ([0xAA, 0, 0, 0, 7, 0xA1, 0xE4, 0x02, 0, 0, 0, 9] : List Nat).length ∧
    ∃ im, parseAAResponse [0xAA, 0, 0, 0, 7, 0xA1, 0xE4, 0x02, 0, 0, 0, 9] {} "9" = .ok im ∧
      im.result = some (if ([0xAA, 0, 0, 0, 7, 0xA1, 0xE4, 0x02, 0, 0, 0, 9] : List Nat).getD 5 0 = 0xA1 then "Success" else "Failure") ∧
      im.originalReq = some (hexSlice [0xAA, 0, 0, 0, 7, 0xA1, 0xE4, 0x02, 0, 0, 0, 9] 6 (6 + (12 - 10))) ∧
      6 + (12 - 10) = 12 - 4 ∧
      ((hexSlice [0xAA, 0, 0, 0, 7, 0xA1, 0xE4, 0x02, 0, 0, 0, 9] 6 (6 + (12 - 10))).data.take 2 = ['E', '4'] →
        im.colorMap = some (aaColorBytes [0xAA, 0, 0, 0, 7, 0xA1, 0xE4, 0x02, 0, 0, 0, 9] (12 - 10)) ∧
        aaColorBytes [0xAA, 0, 0, 0, 7, 0xA1, 0xE4, 0x02, 0, 0, 0, 9] (12 - 10) = []) ∧
      ((hexSlice [0xAA, 0, 0, 0, 7, 0xA1, 0xE4, 0x02, 0, 0, 0, 9] 6 (6 + (12 - 10))).data.take 2 ≠ ['E', '4'] →
        im.colorMap = (({} : IM)).colorMap) :=
  ⟨by decide, c9_ope_ack_decode [0xAA, 0, 0, 0, 7, 0xA1, 0xE4, 0x02, 0, 0, 0, 9] {} "9" (by decide)⟩

/-- The `SYS_REQUIRE_SYNC` event a cache miss emits for one module. -/
def mkSyncEvent (devId ts : Option String) (modAddr : Option Nat) : UEvent :=
  { deviceId := devId, deviceType := "V6800", modAddr := modAddr, sensorAddr := some 0,
    type := "SYS_REQUIRE_SYNC", ts := ts, key := "require_sync",
    value := .sync "cache_miss" }

/-- C2: a V6800 patch-path `normalize` call whose single module block
carries `N` tag items, when no shadow exists for `(deviceId, modAddr)`,
emits exactly the `N` pass-through `SYS_RFID_EVENT`s followed by one
`SYS_REQUIRE_SYNC{cache_miss}`, zero `SYS_RFID_SNAPSHOT`s, and leaves the
cache untouched, the entry for that key still absent. -/
theorem c2_patch_cache_miss (c : Cache) (pd : IM) (md : V6Module) (items : List V6Item)
    (hdt : pd.deviceType = some "V6800") (hmt : pd.messageType = some "LABEL_STATE")
    (hdata : pd.data = some [md]) (hitems : md.items = some items)
    (hmiss : cacheGet c (createKey pd.deviceId md.modAddr) = none) :
    normalize (some pd) c =
      ((items.map fun it =>
          mkRfidEvent pd.deviceId "V6800" md.modAddr pd.ts it.action it.tagId it.uPos it.alarmStatus)
        ++ [mkSyncEvent pd.deviceId pd.ts md.modAddr], c) ∧
    ((normalize (some pd) c).1.countP fun e => e.type == "SYS_RFID_EVENT") = items.length ∧
    ((normalize (some pd) c).1.countP fun e => e.type == "SYS_REQUIRE_SYNC") = 1 ∧
    ((normalize (some pd) c).1.countP fun e => e.type == "SYS_RFID_SNAPSHOT") = 0 ∧
    cacheGet (normalize (some pd) c).2 (createKey pd.deviceId md.modAddr) = none := by
  have hmod : processV6800Module c pd.deviceId pd.ts md =
      (.ok ((items.map fun it =>
          mkRfidEvent pd.deviceId "V6800" md.modAddr pd.ts it.action it.tagId it.uPos it.alarmStatus)
        ++ [mkSyncEvent pd.deviceId pd.ts md.modAddr]), c) := by
    simp only [processV6800Module, hitems, hmiss, mkSyncEvent]
  have hrfid : processV6800Rfid c pd =
      (.ok ((items.map fun it =>
          mkRfidEvent pd.deviceId "V6800" md.modAddr pd.ts it.action it.tagId it.uPos it.alarmStatus)
        ++ [mkSyncEvent pd.deviceId pd.ts md.modAddr]), c) := by
    simp only [processV6800Rfid, hdata, processV6800ModuleList, hmod, List.nil_append]
  have hrun : normalize (some pd) c =
      ((items.map fun it =>
          mkRfidEvent pd.deviceId "V6800" md.modAddr pd.ts it.action it.tagId it.uPos it.alarmStatus)
        ++ [mkSyncEvent pd.deviceId pd.ts md.modAddr], c) := by
    have hE : normalizeE (some pd) c = processV6800 c pd := by
      simp only [normalizeE, hdt, truthyStr, String.isEmpty]
      rw [if_neg (by decide)]
    have hP : processV6800 c pd = processV6800Rfid c pd := by
      simp only [processV6800, hmt]
    unfold normalize
    rw [hE, hP, hrfid]
  refine ⟨hrun, ?_, ?_, ?_, ?_⟩ <;> rw [hrun]
  · rw [List.countP_append, List.countP_map]
    simp [mkRfidEvent, mkSyncEvent, Function.comp]
  · rw [List.countP_append, List.countP_map]
    simp [mkRfidEvent, mkSyncEvent, Function.comp]
  · rw [List.countP_append, List.countP_map]
    simp [mkRfidEvent, mkSyncEvent, Function.comp]
  · exact hmiss

/-- A concrete one-item V6800 RFID module block. -/
def mdSampleB : V6Module :=
  ⟨some 2, some "3963041727", some [⟨some 3, 0, some "DD23B0B4", some "attached"⟩]⟩

/-- A concrete V6800 patch-path intermediate message carrying `mdSampleB`. -/
def pdSampleB : IM :=
  { deviceType := some "V6800", deviceId := some "2123456789",
    messageType := some "LABEL_STATE", ts := some "2025-01-01T10:00:00.000Z",
    data := some [mdSampleB] }

/-- Witness for C2: the one-item patch message against an empty cache. -/
theorem c2_patch_cache_miss_witness :
    pdSampleB.deviceType = some "V6800" ∧
    cacheGet [] (createKey pdSampleB.deviceId mdSampleB.modAddr) = none ∧
    (normalize (some pdSampleB) [] =
      (((mdSampleB.items.getD []).map fun it =>
          mkRfidEvent pdSampleB.deviceId "V6800" mdSampleB.modAddr pdSampleB.ts
            it.action it.tagId it.uPos it.alarmStatus)
        ++ [mkSyncEvent pdSampleB.deviceId pdSampleB.ts mdSampleB.modAddr], []) ∧
     ((normalize (some pdSampleB) []).1.countP fun e => e.type == "SYS_RFID_EVENT") = 1 ∧
     ((normalize (some pdSampleB) []).1.countP fun e => e.type == "SYS_REQUIRE_SYNC") = 1 ∧
     ((normalize (some pdSampleB) []).1.countP fun e => e.type == "SYS_RFID_SNAPSHOT") = 0 ∧
     cacheGet (normalize (some pdSampleB) []).2 (createKey pdSampleB.deviceId mdSampleB.modAddr) = none) :=
  ⟨rfl, rfl, c2_patch_cache_miss [] pdSampleB mdSampleB
    [⟨some 3, 0, some "DD23B0B4", some "attached"⟩] rfl rfl rfl rfl rfl⟩

theorem filter_not_has_self (m : TagMap) :
    (m.filter fun p => !mapHas m p.1) = [] := by
  rw [List.filter_eq_nil_iff]
  intro p hp
  rw [mapHas_of_mem hp]
  decide

/-- C3: normalizing the same V5008 full tag-list message twice in a row
for the same `(deviceId, modAddr)` yields zero attach/detach
`SYS_RFID_EVENT`s on the second call — only the trailing
`SYS_RFID_SNAPSHOT` of the unchanged shadow. -/
theorem c3_diff_idempotent (c : Cache) (pd : IM) (items : List V5Item)
    (hdt : pd.deviceType = some "V5008") (hmt : pd.messageType = some "LabelState")
    (hitems : pd.items = some items) :
    (normalize (some pd) (normalize (some pd) c).2).1 =
      [mkSnapshotEvent pd.deviceId "V5008" pd.modAddr pd.ts pd.modId (buildTags items)] ∧
    ((normalize (some pd) (normalize (some pd) c).2).1.countP
        fun e => e.type == "SYS_RFID_EVENT") = 0 := by
  have hrun : ∀ c' : Cache, normalize (some pd) c' =
      (((((cacheGet c' (createKey pd.deviceId pd.modAddr)).getD []).filter
            fun p => !mapHas (buildTags items) p.1).map fun p =>
          mkRfidEvent pd.deviceId "V5008" pd.modAddr pd.ts (some "detached") p.2.tagId p.1 p.2.alarmStatus)
        ++ (((buildTags items).filter
            fun p => !mapHas ((cacheGet c' (createKey pd.deviceId pd.modAddr)).getD []) p.1).map fun p =>
          mkRfidEvent pd.deviceId "V5008" pd.modAddr pd.ts (some "attached") p.2.tagId p.1 p.2.alarmStatus)
        ++ [mkSnapshotEvent pd.deviceId "V5008" pd.modAddr pd.ts pd.modId (buildTags items)],
       cacheSet c' (createKey pd.deviceId pd.modAddr) (buildTags items)) := by
    intro c'
    have hE : normalizeE (some pd) c' = processV5008 c' pd := by
      simp only [normalizeE, hdt, truthyStr, String.isEmpty]
      rw [if_neg (by decide)]
    have hP : processV5008 c' pd = processV5008Rfid c' pd := by
      simp only [processV5008, hmt]
    unfold normalize
    rw [hE, hP]
    simp only [processV5008Rfid, hitems]
  have hc1 : (normalize (some pd) c).2 =
      cacheSet c (createKey pd.deviceId pd.modAddr) (buildTags items) := by
    rw [hrun c]
  have hprev : (cacheGet (normalize (some pd) c).2
      (createKey pd.deviceId pd.modAddr)).getD [] = buildTags items := by
    rw [hc1, cacheGet_cacheSet_self]
    rfl
  have hsecond : (normalize (some pd) (normalize (some pd) c).2).1 =
      [mkSnapshotEvent pd.deviceId "V5008" pd.modAddr pd.ts pd.modId (buildTags items)] := by
    rw [hrun (normalize (some pd) c).2]
    simp only [hprev, filter_not_has_self, List.map_nil, List.nil_append]
  refine ⟨hsecond, ?_⟩
  rw [hsecond]
  simp [mkSnapshotEvent]

/-- A concrete three-item V5008 full tag list message. -/
def pdSampleA : IM :=
  { deviceType := some "V5008", deviceId := some "2437871205",
    messageType := some "LabelState", ts := some "2025-01-01T10:00:00.000Z",
    modAddr := some 2, modId := some "2349402517",
    items := some [⟨10, 0, "DD344A44"⟩, ⟨11, 0, "DD2862B4"⟩, ⟨12, 0, "DD3CE9C4"⟩] }

/-- Witness for C3: the concrete full tag list resent against an empty cache. -/
theorem c3_diff_idempotent_witness :
    pdSampleA.deviceType = some "V5008" ∧
    (normalize (some pdSampleA) (normalize (some pdSampleA) []).2).1 =
      [mkSnapshotEvent pdSampleA.deviceId "V5008" pdSampleA.modAddr pdSampleA.ts
        pdSampleA.modId (buildTags (pdSampleA.items.getD []))] ∧
    ((normalize (some pdSampleA) (normalize (some pdSampleA) []).2).1.countP
        fun e => e.type == "SYS_RFID_EVENT") = 0 :=
  ⟨rfl, (c3_diff_idempotent [] pdSampleA (pdSampleA.items.getD []) rfl rfl rfl).1,
    (c3_diff_idempotent [] pdSampleA (pdSampleA.items.getD []) rfl rfl rfl).2⟩

/-- C10: `normalize` never lets an error escape: a null input, an unknown
device type, an unknown V5008 message type, and a V5008 `LabelState`
message missing its `items` sub-field all yield the empty event sequence,
and whenever the body would throw (`normalizeE` errors) the `try/catch`
returns the empty sequence instead of re-raising. -/
theorem c10_normalize_never_throws :
    (∀ c : Cache, normalize none c = ([], c))
    ∧ (∀ (pd : IM) (c : Cache) (dt : String), pd.deviceType = some dt →
        dt ≠ "V5008" → dt ≠ "V6800" → normalize (some pd) c = ([], c))
    ∧ (∀ (pd : IM) (c : Cache) (mt : String), pd.deviceType = some "V5008" →
        pd.messageType = some mt →
        mt ≠ "OpeAck" → mt ≠ "LabelState" → mt ≠ "TemHum" → mt ≠ "Noise" →
        mt ≠ "HeartBeat" → mt ≠ "HEARTBEAT" →
        normalize (some pd) c = ([], c))
    ∧ (∀ (pd : IM) (c : Cache), pd.deviceType = some "V5008" →
        pd.messageType = some "LabelState" → pd.items = none →
        normalize (some pd) c = ([], c))
    ∧ (∀ (pd : Option IM) (c c' : Cache) (e : String),
        normalizeE pd c = (.error e, c') → normalize pd c = ([], c')) := by
  refine ⟨fun c => rfl, ?_, ?_, ?_, ?_⟩
  · intro pd c dt hdt h5 h6
    have hbody : normalizeE (some pd) c = (.ok [], c) := by
      simp only [normalizeE, hdt]
      by_cases hdt0 : truthyStr (some dt) = true
      · rw [if_neg (by simp [hdt0])]
        split
        next h => exact absurd (Option.some.inj h) h5
        next h => exact absurd (Option.some.inj h) h6
        next => rfl
      · rw [if_pos (by simpa using hdt0)]
    unfold normalize
    rw [hbody]
  · intro pd c mt hdt hmt h1 h2 h3 h4 h5 h6
    have hE : normalizeE (some pd) c = processV5008 c pd := by
      simp only [normalizeE, hdt, truthyStr, String.isEmpty]
      rw [if_neg (by decide)]
    have hbody : processV5008 c pd = (.ok [], c) := by
      simp only [processV5008, hmt]
      split
      next h => exact absurd (Option.some.inj h) h1
      next h => exact absurd (Option.some.inj h) h2
      next h => exact absurd (Option.some.inj h) h3
      next h => exact absurd (Option.some.inj h) h4
      next h => exact absurd (Option.some.inj h) h5
      next h => exact absurd (Option.some.inj h) h6
      next => rfl
    unfold normalize
    rw [hE, hbody]
  · intro pd c hdt hmt hitems
    have hE : normalizeE (some pd) c = processV5008 c pd := by
      simp only [normalizeE, hdt, truthyStr, String.isEmpty]
      rw [if_neg (by decide)]
    have hP : processV5008 c pd = processV5008Rfid c pd := by
      simp only [processV5008, hmt]
    have hR : processV5008Rfid c pd = (.error "items is not iterable", c) := by
      simp only [processV5008Rfid, hitems]
    unfold normalize
    rw [hE, hP, hR]
  · intro pd c c' e h
    unfold normalize
    rw [h]

/-- A structurally valid V5008 `LabelState` message missing `items`. -/
def pdMissingItems : IM :=
  { deviceType := some "V5008", messageType := some "LabelState" }

/-- Witness for C10 at a null input, an unknown device type, an unknown
message type, and a missing sub-field that makes the body throw. -/
theorem c10_normalize_never_throws_witness :
    normalize none [] = ([], []) ∧
    normalize (some { deviceType := some "X9000" }) [] = ([], []) ∧
    normalize (some { deviceType := some "V5008", messageType := some "Bogus" }) [] = ([], []) ∧
    normalize (some pdMissingItems) [] = ([], []) ∧
    (normalizeE (some pdMissingItems) [] = (.error "items is not iterable", []) ∧
      normalize (some pdMissingItems) [] = ([], [])) :=
  ⟨c10_normalize_never_throws.1 [],
   c10_normalize_never_throws.2.1 _ [] "X9000" rfl (by decide) (by decide),
   c10_normalize_never_throws.2.2.1 _ [] "Bogus" rfl rfl (by decide) (by decide)
     (by decide) (by decide) (by decide) (by decide),
   c10_normalize_never_throws.2.2.2.1 _ [] rfl rfl rfl,
   rfl, c10_normalize_never_throws.2.2.2.2 (some pdMissingItems) [] [] _ rfl⟩

theorem bind_ok_elim {α β : Type} {x : Except String α} {f : α → Except String β} {r : β}
    (h : x >>= f = .ok r) : ∃ a, x = .ok a ∧ f a = .ok r := by
  cases x with
  | error e => simp [Bind.bind, Except.bind] at h
  | ok a => exact ⟨a, rfl, by simpa [Bind.bind, Except.bind] using h⟩

theorem map_ok_elim {α β : Type} {g : α → β} {x : Except String α} {r : β}
    (h : g <$> x = .ok r) : ∃ a, x = .ok a ∧ r = g a := by
  cases x with
  | error e => simp [Functor.map, Except.map] at h
  | ok a =>
    refine ⟨a, rfl, ?_⟩
    simp [Functor.map, Except.map] at h
    exact h.symm

theorem parseLabelState_fields {b : List Nat} {base im : IM}
    (h : parseLabelState b base = .ok im) :
    im.messageType = base.messageType ∧ im.deviceType = base.deviceType := by
  unfold parseLabelState at h
  obtain ⟨v0, h0, h⟩ := bind_ok_elim h
  obtain ⟨v1, h1, h⟩ := bind_ok_elim h
  obtain ⟨v2, h2, h⟩ := bind_ok_elim h
  obtain ⟨v3, h3, h⟩ := bind_ok_elim h
  obtain ⟨v4, h4, h⟩ := bind_ok_elim h
  obtain ⟨v5, h5, h⟩ := bind_ok_elim h
  obtain ⟨v6, h6, h⟩ := bind_ok_elim h
  rw [← Except.ok.inj h]
  exact ⟨rfl, rfl⟩

theorem parseDoorState_fields {b : List Nat} {base im : IM} {mid : String}
    (h : parseDoorState b base mid = .ok im) :
    im.messageType = base.messageType ∧ im.deviceType = base.deviceType := by
  unfold parseDoorState at h
  obtain ⟨v0, h0, h⟩ := bind_ok_elim h
  obtain ⟨v1, h1, h⟩ := bind_ok_elim h
  obtain ⟨v2, h2, h⟩ := bind_ok_elim h
  rw [← Except.ok.inj h]
  exact ⟨rfl, rfl⟩

theorem parseAAResponse_fields {b : List Nat} {base im : IM} {mid : String}
    (h : parseAAResponse b base mid = .ok im) :
    im.messageType = base.messageType ∧ im.deviceType = base.deviceType := by
  unfold parseAAResponse at h
  obtain ⟨v0, h0, h⟩ := bind_ok_elim h
  obtain ⟨v1, h1, h⟩ := bind_ok_elim h
  simp only [] at h
  split at h
  · rw [← Except.ok.inj h]
    exact ⟨rfl, rfl⟩
  · rw [← Except.ok.inj h]
    exact ⟨rfl, rfl⟩

/-- C4: an adapter-A frame whose leading byte stamps the intermediate
message as `LABEL_STATE` (0xBB), `DOOR_STATE` (0xBA) or `OPE_ACK` (0xAA)
is dead on arrival at the normalizer: `_processV5008` matches only the
spellings `OpeAck`/`LabelState`/`TemHum`/`Noise`/`HeartBeat`/`HEARTBEAT`,
so `normalize` returns the empty event sequence and leaves the cache
untouched. -/
theorem c4_dead_adapter_a_paths (topic ts : String) (b : List Nat) (c : Cache) (hd : Nat)
    (hhead : b.get? 0 = some hd) (hh : hd = 0xBB ∨ hd = 0xBA ∨ hd = 0xAA) (im : IM)
    (hp : v5008Parse topic ts b = some im) :
    (im.messageType = some "LABEL_STATE" ∨ im.messageType = some "DOOR_STATE" ∨
      im.messageType = some "OPE_ACK") ∧
    normalize (some im) c = ([], c) := by
  have hu8 : readU8 b 0 = .ok hd := by
    unfold readU8
    rw [hhead]
  unfold v5008Parse at hp
  have hfinish : ∀ mt : String, im.messageType = some mt →
      im.deviceType = some "V5008" →
      processV5008 c im = (.ok [], c) → normalize (some im) c = ([], c) := by
    intro mt hmt hdt hbody
    have hE2 : normalizeE (some im) c = processV5008 c im := by
      simp only [normalizeE, hdt, truthyStr, String.isEmpty]
      rw [if_neg (by decide)]
    unfold normalize
    rw [hE2, hbody]
  rcases hh with rfl | rfl | rfl
  · -- 0xBB: LABEL_STATE, routed straight to parseLabelState
    cases hE : v5008ParseE topic ts b with
    | error e => rw [hE] at hp; cases hp
    | ok r =>
      rw [hE] at hp
      simp only [] at hp
      simp only [v5008ParseE, v5008MessageType, hhead] at hE
      obtain ⟨imp, hps, hr⟩ := map_ok_elim hE
      have him : im = imp := Option.some.inj ((hp.symm).trans hr)
      subst him
      obtain ⟨hmt, hdt⟩ := parseLabelState_fields hps
      refine ⟨Or.inl hmt, hfinish "LABEL_STATE" hmt hdt ?_⟩
      simp only [processV5008, hmt]
      rfl
  · -- 0xBA: DOOR_STATE via parseOpeAck → parseDoorState
    cases hE : v5008ParseE topic ts b with
    | error e => rw [hE] at hp; cases hp
    | ok r =>
      rw [hE] at hp
      simp only [] at hp
      simp only [v5008ParseE, v5008MessageType, hhead] at hE
      unfold parseOpeAck at hE
      obtain ⟨vh, hvh, hE⟩ := bind_ok_elim hE
      have hv : vh = 0xBA := Except.ok.inj (hvh.symm.trans hu8)
      subst hv
      obtain ⟨vm, hvm, hE⟩ := bind_ok_elim hE
      simp only [reduceIte] at hE
      obtain ⟨imp, hps, hr⟩ := map_ok_elim hE
      have him : im = imp := Option.some.inj ((hp.symm).trans hr)
      subst him
      obtain ⟨hmt, hdt⟩ := parseDoorState_fields hps
      refine ⟨Or.inr (Or.inl hmt), hfinish "DOOR_STATE" hmt hdt ?_⟩
      simp only [processV5008, hmt]
      rfl
  · -- 0xAA: OPE_ACK via parseOpeAck → parseAAResponse
    cases hE : v5008ParseE topic ts b with
    | error e => rw [hE] at hp; cases hp
    | ok r =>
      rw [hE] at hp
      simp only [] at hp
      simp only [v5008ParseE, v5008MessageType, hhead] at hE
      unfold parseOpeAck at hE
      obtain ⟨vh, hvh, hE⟩ := bind_ok_elim hE
      have hv : vh = 0xAA := Except.ok.inj (hvh.symm.trans hu8)
      subst hv
      obtain ⟨vm, hvm, hE⟩ := bind_ok_elim hE
      simp only [reduceIte] at hE
      obtain ⟨imp, hps, hr⟩ := map_ok_elim hE
      have him : im = imp := Option.some.inj ((hp.symm).trans hr)
      subst him
      obtain ⟨hmt, hdt⟩ := parseAAResponse_fields hps
      refine ⟨Or.inr (Or.inr hmt), hfinish "OPE_ACK" hmt hdt ?_⟩
      simp only [processV5008, hmt]
      rfl

/-- A concrete 11-byte 0xBA door-state frame. -/
def doorFrame : List Nat := [0xBA, 1, 0, 0, 0, 5, 1, 0, 0, 0, 9]

/-- Witness for C4: the concrete door-state frame parses and then
normalizes to the empty sequence. -/
theorem c4_dead_adapter_a_paths_witness :
    doorFrame.get? 0 = some 0xBA ∧
    (∃ im, v5008Parse "V5008Upload/2437871205/OpeAck" "2025-01-01T10:00:00.000Z" doorFrame
        = some im ∧
      (im.messageType = some "LABEL_STATE" ∨ im.messageType = some "DOOR_STATE" ∨
        im.messageType = some "OPE_ACK") ∧
      normalize (some im) [] = ([], [])) := by
  refine ⟨rfl, ?_⟩
  obtain ⟨im0, hp0⟩ : ∃ im0,
      v5008Parse "V5008Upload/2437871205/OpeAck" "2025-01-01T10:00:00.000Z" doorFrame
        = some im0 := ⟨_, rfl⟩
  have hmain := c4_dead_adapter_a_paths "V5008Upload/2437871205/OpeAck"
    "2025-01-01T10:00:00.000Z" doorFrame [] 0xBA rfl (Or.inr (Or.inl rfl)) im0 hp0
  exact ⟨im0, hp0, hmain.1, hmain.2⟩

/-- Recognizer for a `SYS_RFID_EVENT` with a given action at a given `uPos`. -/
def isRfidAction (action : String) (u : Option Nat) (e : UEvent) : Bool :=
  e.type == "SYS_RFID_EVENT" &&
    match e.value with
    | .rfid a _ up _ => a == some action && up == u
    | _ => false

/-- Recognizer for any `SYS_RFID_EVENT`. -/
def isRfidEvent (e : UEvent) : Bool := e.type == "SYS_RFID_EVENT"

/-- C1: the V5008 diff path emits exactly one detached event per `uPos`
present in the previous shadow but not in the inbound list, exactly one
attached event per `uPos` present in the inbound list but not in the
previous shadow, nothing for a `uPos` present in both, every
`SYS_RFID_EVENT` being one of those two; and the stored shadow is replaced
wholesale by the map built from the inbound list. -/
theorem c1_diff_completeness (c : Cache) (pd : IM) (items : List V5Item)
    (hitems : pd.items = some items)
    (hnd : nodupKeys ((cacheGet c (createKey pd.deviceId pd.modAddr)).getD [])) :
    ∃ evs : List UEvent,
      processV5008Rfid c pd =
        (.ok evs, cacheSet c (createKey pd.deviceId pd.modAddr) (buildTags items)) ∧
      cacheGet (processV5008Rfid c pd).2 (createKey pd.deviceId pd.modAddr)
        = some (buildTags items) ∧
      (∀ u : Option Nat, evs.countP (isRfidAction "detached" u)
        = if mapHas ((cacheGet c (createKey pd.deviceId pd.modAddr)).getD []) u
             ∧ !mapHas (buildTags items) u then 1 else 0) ∧
      (∀ u : Option Nat, evs.countP (isRfidAction "attached" u)
        = if mapHas (buildTags items) u
             ∧ !mapHas ((cacheGet c (createKey pd.deviceId pd.modAddr)).getD []) u then 1 else 0) ∧
      (∀ e ∈ evs, isRfidEvent e = true →
        ∃ u, isRfidAction "detached" u e = true ∨ isRfidAction "attached" u e = true) := by
  have hcnd : nodupKeys (buildTags items) := nodupKeys_buildTags items
  have hrun : processV5008Rfid c pd =
      (.ok (((((cacheGet c (createKey pd.deviceId pd.modAddr)).getD []).filter
            fun p => !mapHas (buildTags items) p.1).map fun p =>
          mkRfidEvent pd.deviceId "V5008" pd.modAddr pd.ts (some "detached") p.2.tagId p.1 p.2.alarmStatus)
        ++ (((buildTags items).filter
            fun p => !mapHas ((cacheGet c (createKey pd.deviceId pd.modAddr)).getD []) p.1).map fun p =>
          mkRfidEvent pd.deviceId "V5008" pd.modAddr pd.ts (some "attached") p.2.tagId p.1 p.2.alarmStatus)
        ++ [mkSnapshotEvent pd.deviceId "V5008" pd.modAddr pd.ts pd.modId (buildTags items)]),
       cacheSet c (createKey pd.deviceId pd.modAddr) (buildTags items)) := by
    simp only [processV5008Rfid, hitems]
  refine ⟨_, hrun, ?_, ?_, ?_, ?_⟩
  · rw [hrun]
    exact cacheGet_cacheSet_self ..
  · intro u
    rw [List.countP_append, List.countP_append, List.countP_map, List.countP_map]
    have h1 : ((((cacheGet c (createKey pd.deviceId pd.modAddr)).getD []).filter
          fun p => !mapHas (buildTags items) p.1).countP
        ((isRfidAction "detached" u) ∘ fun p =>
          mkRfidEvent pd.deviceId "V5008" pd.modAddr pd.ts (some "detached") p.2.tagId p.1 p.2.alarmStatus))
        = if mapHas ((cacheGet c (createKey pd.deviceId pd.modAddr)).getD []) u
             ∧ !mapHas (buildTags items) u then 1 else 0 := by
      have hcong := List.countP_congr
        (l := ((cacheGet c (createKey pd.deviceId pd.modAddr)).getD []).filter
          fun p => !mapHas (buildTags items) p.1)
        (p := (isRfidAction "detached" u) ∘ fun p =>
          mkRfidEvent pd.deviceId "V5008" pd.modAddr pd.ts (some "detached") p.2.tagId p.1 p.2.alarmStatus)
        (q := fun p => p.1 == u)
        (fun p _ => by simp [Function.comp, isRfidAction, mkRfidEvent])
      rw [hcong]
      exact countP_key_filter hnd u fun k => !mapHas (buildTags items) k
    have h2 : (((buildTags items).filter
          fun p => !mapHas ((cacheGet c (createKey pd.deviceId pd.modAddr)).getD []) p.1).countP
        ((isRfidAction "detached" u) ∘ fun p =>
          mkRfidEvent pd.deviceId "V5008" pd.modAddr pd.ts (some "attached") p.2.tagId p.1 p.2.alarmStatus))
        = 0 := by
      rw [List.countP_eq_zero]
      intro p _
      simp [Function.comp, isRfidAction, mkRfidEvent]
    have h3 : ([mkSnapshotEvent pd.deviceId "V5008" pd.modAddr pd.ts pd.modId
        (buildTags items)].countP (isRfidAction "detached" u)) = 0 := by
      simp [isRfidAction, mkSnapshotEvent]
    rw [h1, h2, h3]
    simp
  · intro u
    rw [List.countP_append, List.countP_append, List.countP_map, List.countP_map]
    have h1 : ((((cacheGet c (createKey pd.deviceId pd.modAddr)).getD []).filter
          fun p => !mapHas (buildTags items) p.1).countP
        ((isRfidAction "attached" u) ∘ fun p =>
          mkRfidEvent pd.deviceId "V5008" pd.modAddr pd.ts (some "detached") p.2.tagId p.1 p.2.alarmStatus))
        = 0 := by
      rw [List.countP_eq_zero]
      intro p _
      simp [Function.comp, isRfidAction, mkRfidEvent]
    have h2 : (((buildTags items).filter
          fun p => !mapHas ((cacheGet c (createKey pd.deviceId pd.modAddr)).getD []) p.1).countP
        ((isRfidAction "attached" u) ∘ fun p =>
          mkRfidEvent pd.deviceId "V5008" pd.modAddr pd.ts (some "attached") p.2.tagId p.1 p.2.alarmStatus))
        = if mapHas (buildTags items) u
             ∧ !mapHas ((cacheGet c (createKey pd.deviceId pd.modAddr)).getD []) u then 1 else 0 := by
      have hcong := List.countP_congr
        (l := (buildTags items).filter
          fun p => !mapHas ((cacheGet c (createKey pd.deviceId pd.modAddr)).getD []) p.1)
        (p := (isRfidAction "attached" u) ∘ fun p =>
          mkRfidEvent pd.deviceId "V5008" pd.modAddr pd.ts (some "attached") p.2.tagId p.1 p.2.alarmStatus)
        (q := fun p => p.1 == u)
        (fun p _ => by simp [Function.comp, isRfidAction, mkRfidEvent])
      rw [hcong]
      exact countP_key_filter hcnd u
        fun k => !mapHas ((cacheGet c (createKey pd.deviceId pd.modAddr)).getD []) k
    have h3 : ([mkSnapshotEvent pd.deviceId "V5008" pd.modAddr pd.ts pd.modId
        (buildTags items)].countP (isRfidAction "attached" u)) = 0 := by
      simp [isRfidAction, mkSnapshotEvent]
    rw [h1, h2, h3]
    simp
  · intro e he _
    rcases List.mem_append.mp he with hin | hsnap
    · rcases List.mem_append.mp hin with hdet | hatt
      · rcases List.mem_map.mp hdet with ⟨p, _, rfl⟩
        exact ⟨p.1, Or.inl (by simp [isRfidAction, mkRfidEvent])⟩
      · rcases List.mem_map.mp hatt with ⟨p, _, rfl⟩
        exact ⟨p.1, Or.inr (by simp [isRfidAction, mkRfidEvent])⟩
    · rw [List.mem_singleton] at hsnap
      subst hsnap
      simp [isRfidEvent, mkSnapshotEvent] at *

/-- Witness for C1: the concrete three-item full tag list against an
empty cache. -/
theorem c1_diff_completeness_witness :
    pdSampleA.items = some [⟨10, 0, "DD344A44"⟩, ⟨11, 0, "DD2862B4"⟩, ⟨12, 0, "DD3CE9C4"⟩] ∧
    nodupKeys ((cacheGet [] (createKey pdSampleA.deviceId pdSampleA.modAddr)).getD []) ∧
    (∃ evs : List UEvent,
      processV5008Rfid [] pdSampleA =
        (.ok evs, cacheSet [] (createKey pdSampleA.deviceId pdSampleA.modAddr)
          (buildTags [⟨10, 0, "DD344A44"⟩, ⟨11, 0, "DD2862B4"⟩, ⟨12, 0, "DD3CE9C4"⟩])) ∧
      cacheGet (processV5008Rfid [] pdSampleA).2 (createKey pdSampleA.deviceId pdSampleA.modAddr)
        = some (buildTags [⟨10, 0, "DD344A44"⟩, ⟨11, 0, "DD2862B4"⟩, ⟨12, 0, "DD3CE9C4"⟩]) ∧
      (∀ u : Option Nat, evs.countP (isRfidAction "detached" u)
        = if mapHas ((cacheGet [] (createKey pdSampleA.deviceId pdSampleA.modAddr)).getD []) u
             ∧ !mapHas (buildTags [⟨10, 0, "DD344A44"⟩, ⟨11, 0, "DD2862B4"⟩, ⟨12, 0, "DD3CE9C4"⟩]) u
          then 1 else 0) ∧
      (∀ u : Option Nat, evs.countP (isRfidAction "attached" u)
        = if mapHas (buildTags [⟨10, 0, "DD344A44"⟩, ⟨11, 0, "DD2862B4"⟩, ⟨12, 0, "DD3CE9C4"⟩]) u
             ∧ !mapHas ((cacheGet [] (createKey pdSampleA.deviceId pdSampleA.modAddr)).getD []) u
          then 1 else 0) ∧
      (∀ e ∈ evs, isRfidEvent e = true →
        ∃ u, isRfidAction "detached" u e = true ∨ isRfidAction "attached" u e = true)) :=
  ⟨rfl, by simp [nodupKeys, keysOf, cacheGet],
    c1_diff_completeness [] pdSampleA
      [⟨10, 0, "DD344A44"⟩, ⟨11, 0, "DD2862B4"⟩, ⟨12, 0, "DD3CE9C4"⟩] rfl
      (by simp [nodupKeys, keysOf, cacheGet])⟩

theorem bind_ok {α β : Type} (x : α) (f : α → Except String β) :
    (Except.ok x : Except String α) >>= f = f x := rfl

theorem labelLoop_spec (b : List Nat) : ∀ (n off : Nat),
    ∃ its, labelLoop b n off = .ok its ∧
      its.length = min n ((b.length - 4 - off) / 6) ∧
      ∀ i (hi : i < its.length),
        its.get ⟨i, hi⟩ = ⟨b.getD (off + 6 * i) 0, b.getD (off + 6 * i + 1) 0,
          hexSlice b (off + 6 * i + 2) (off + 6 * i + 6)⟩ := by
  intro n
  induction n with
  | zero =>
    intro off
    exact ⟨[], rfl, by simp, fun i hi => absurd hi (by simp)⟩
  | succ n ih =>
    intro off
    by_cases hg : (off : Int) + 6 > (b.length : Int) - 4
    · refine ⟨[], ?_, ?_, fun i hi => absurd hi (by simp)⟩
      · unfold labelLoop
        rw [if_pos hg]
      · have : (b.length - 4 - off) / 6 = 0 := by
          apply Nat.div_eq_of_lt
          omega
        simp [this]
    · obtain ⟨rest, hrest, hrlen, hrget⟩ := ih (off + 6)
      have hb1 : off < b.length := by omega
      have hb2 : off + 1 < b.length := by omega
      refine ⟨⟨b.getD off 0, b.getD (off + 1) 0, hexSlice b (off + 2) (off + 6)⟩ :: rest,
        ?_, ?_, ?_⟩
      · unfold labelLoop
        rw [if_neg hg, readU8_ok hb1, readU8_ok hb2, hrest]
        rfl
      · have hge : 6 ≤ b.length - 4 - off := by omega
        have hsub : b.length - 4 - (off + 6) = b.length - 4 - off - 6 := by omega
        have hdiv : (b.length - 4 - off) / 6 = (b.length - 4 - off - 6) / 6 + 1 := by
          have h6 : b.length - 4 - off - 6 + 6 = b.length - 4 - off := by omega
          conv_lhs => rw [← h6]
          rw [Nat.add_div_right _ (by norm_num)]
        simp only [List.length_cons, hrlen, hsub, hdiv, Nat.succ_min_succ]
      · intro i hi
        match i with
        | 0 => simp
        | j + 1 =>
          have hj : j < rest.length := by
            simpa using hi
          have := hrget j hj
          simp only [List.get_cons_succ, this]
          have e1 : off + 6 + 6 * j = off + 6 * (j + 1) := by ring
          rw [e1]

/-- C5: a `LABEL_STATE` frame decodes its header as module address
(byte 0), module id (4 bytes from byte 1), reserved byte, total-slot count
(byte 6) and online-tag count (byte 7); the online count drives a loop of
fixed 6-byte tag records (position byte, alarm byte, 4-byte uppercase-hex
tag id) starting at byte 8, and the loop stops before the trailing 4-byte
message-id region: it reads `min onlineCount ((length-12)/6)` records, and
every record it reads ends at or before `length - 4`. -/
theorem c5_label_state_decode (b : List Nat) (base : IM) (h : 8 ≤ b.length) :
    ∃ im, parseLabelState b base = .ok im ∧
      im.modAddr = some (b.getD 0 0) ∧
      im.modId = some (toString (beVal b 1)) ∧
      im.uTotal = some (b.getD 6 0) ∧
      im.onlineCount = some (b.getD 7 0) ∧
      im.messageId = some (toString (beVal b (b.length - 4))) ∧
      ∃ its, im.items = some its ∧
        its.length = min (b.getD 7 0) ((b.length - 12) / 6) ∧
        (∀ i (hi : i < its.length),
          its.get ⟨i, hi⟩ = ⟨b.getD (8 + 6 * i) 0, b.getD (8 + 6 * i + 1) 0,
            hexSlice b (8 + 6 * i + 2) (8 + 6 * i + 6)⟩) ∧
        (∀ i, i < its.length → 8 + 6 * i + 6 ≤ b.length - 4) := by
  obtain ⟨its, hits, hlen, hget⟩ := labelLoop_spec b (b.getD 7 0) 8
  have hmodid : readBigUIntBE b 1 = .ok (beVal b 1) := by
    have := readBigUIntBE_nat_ok (b := b) 1 (by omega)
    simpa using this
  have hmid : readBigUIntBE b ((b.length : Int) - 4) = .ok (beVal b (b.length - 4)) := by
    have hcast : ((b.length : Int) - 4) = ((b.length - 4 : Nat) : Int) := by omega
    rw [hcast]
    exact readBigUIntBE_nat_ok (b.length - 4) (by omega)
  have hlen12 : b.length - 4 - 8 = b.length - 12 := by omega
  refine ⟨{ base with
      messageId := some (toString (beVal b (b.length - 4))),
      modAddr := some (b.getD 0 0), modId := some (toString (beVal b 1)),
      uTotal := some (b.getD 6 0), onlineCount := some (b.getD 7 0),
      items := some its }, ?_, rfl, rfl, rfl, rfl, rfl, its, rfl, ?_, hget, ?_⟩
  · unfold parseLabelState
    rw [readU8_ok (show 0 < b.length by omega), bind_ok, hmodid, bind_ok,
      readU8_ok (show 5 < b.length by omega), bind_ok,
      readU8_ok (show 6 < b.length by omega), bind_ok,
      readU8_ok (show 7 < b.length by omega), bind_ok, hits, bind_ok, hmid, bind_ok]
  · rw [hlen, hlen12]
  · intro i hi
    rw [hlen, hlen12] at hi
    have hi2 : i < (b.length - 12) / 6 := lt_of_lt_of_le hi (min_le_right _ _)
    have hmul : 6 * (i + 1) ≤ 6 * ((b.length - 12) / 6) := by omega
    have hle : 6 * ((b.length - 12) / 6) ≤ b.length - 12 := Nat.mul_div_le ..
    omega

/-- Witness for C5 at a concrete 18-byte frame holding one tag record. -/
theorem c5_label_state_decode_witness :
    8 ≤ ([0x02, 0x8C, 0x09, 0x09, 0x95, 0x00, 0x0C, 0x01,
          0x0A, 0x00, 0xDD, 0x34, 0x4A, 0x44, 0x05, 0x00, 0x07, 0xAD] : List Nat).length ∧
    ∃ im, parseLabelState [0x02, 0x8C, 0x09, 0x09, 0x95, 0x00, 0x0C, 0x01,
          0x0A, 0x00, 0xDD, 0x34, 0x4A, 0x44, 0x05, 0x00, 0x07, 0xAD] {} = .ok im ∧
      im.modAddr = some 0x02 ∧
      im.modId = some (toString (beVal [0x02, 0x8C, 0x09, 0x09, 0x95, 0x00, 0x0C, 0x01,
          0x0A, 0x00, 0xDD, 0x34, 0x4A, 0x44, 0x05, 0x00, 0x07, 0xAD] 1)) ∧
      im.uTotal = some 0x0C ∧
      im.onlineCount = some 0x01 ∧
      im.messageId = some (toString (beVal [0x02, 0x8C, 0x09, 0x09, 0x95, 0x00, 0x0C, 0x01,
          0x0A, 0x00, 0xDD, 0x34, 0x4A, 0x44, 0x05, 0x00, 0x07, 0xAD] 14)) ∧
      ∃ its, im.items = some its ∧
        its.length = min 1 1 ∧
        (∀ i (hi : i < its.length),
          its.get ⟨i, hi⟩ = ⟨[0x02, 0x8C, 0x09, 0x09, 0x95, 0x00, 0x0C, 0x01,
              0x0A, 0x00, 0xDD, 0x34, 0x4A, 0x44, 0x05, 0x00, 0x07, 0xAD].getD (8 + 6 * i) 0,
            [0x02, 0x8C, 0x09, 0x09, 0x95, 0x00, 0x0C, 0x01,
              0x0A, 0x00, 0xDD, 0x34, 0x4A, 0x44, 0x05, 0x00, 0x07, 0xAD].getD (8 + 6 * i + 1) 0,
            hexSlice [0x02, 0x8C, 0x09, 0x09, 0x95, 0x00, 0x0C, 0x01,
              0x0A, 0x00, 0xDD, 0x34, 0x4A, 0x44, 0x05, 0x00, 0x07, 0xAD]
              (8 + 6 * i + 2) (8 + 6 * i + 6)⟩) ∧
        (∀ i, i < its.length → 8 + 6 * i + 6 ≤ 14) :=
  ⟨by decide, c5_label_state_decode [0x02, 0x8C, 0x09, 0x09, 0x95, 0x00, 0x0C, 0x01,
      0x0A, 0x00, 0xDD, 0x34, 0x4A, 0x44, 0x05, 0x00, 0x07, 0xAD] {} (by decide)⟩

/-- The concrete heartbeat frame of the spec's concrete case A: leading
byte 0xCC, module records `(addr=1, id=3963041727 = EC3737BF, slots=6)`
and `(addr=2, id=2349402517 = 8C090995, slots=12)`, then a 4-byte message
id (here 12345678 = 00BC614E). -/
def hbFrame : List Nat :=
  [0xCC, 0x01, 0xEC, 0x37, 0x37, 0xBF, 0x06,
   0x02, 0x8C, 0x09, 0x09, 0x95, 0x0C, 0x00, 0xBC, 0x61, 0x4E]

/-- C6 (divergence witness): on the case-A heartbeat frame the decoder
returns only ONE module record — the `offset + 9` guard of the module loop
breaks before the fully in-bounds second record — and its module id is
rendered as the *signed* 32-bit value "-331925569" rather than the
unsigned "3963041727", because the JS `<<`/`|` pipeline of
`readBigUIntBE` wraps at 2^31.  The message id (top bit clear here) still
matches its unsigned reading. -/
theorem c6_heartbeat_divergence :
    (v5008Parse "V5008Upload/2437871205/OpeAck" "2025-01-01T10:00:00.000Z" hbFrame).map
      (fun im => (im.modules, im.messageId))
      = some (some [⟨some 1, some "-331925569", some 6, none⟩], some "12345678") ∧
    toInt32 3963041727 = -331925569 ∧
    toString (toInt32 3963041727) ≠ "3963041727" := by
  refine ⟨by rfl, by decide, by decide⟩

/-- A V5008 `TemHum` frame whose six sensor slots all carry the sentinel
byte pairs `(0,0)`: module address 1, module id 5, six 5-byte slots with
addresses 0x0A–0x0F, message id 9. -/
def temHumSentinelFrame : List Nat :=
  [0x01, 0x00, 0x00, 0x00, 0x05,
   0x0A, 0, 0, 0, 0, 0x0B, 0, 0, 0, 0, 0x0C, 0, 0, 0, 0,
   0x0D, 0, 0, 0, 0, 0x0E, 0, 0, 0, 0, 0x0F, 0, 0, 0, 0,
   0x00, 0x00, 0x00, 0x09]

/-- C8 (divergence witness): the signed-decimal decoder does yield an
explicit `null` for the `(0,0)` sentinel pair, but the flattening step
still emits `SYS_TELEMETRY` events for every such slot: `parseTemHum`
names the sensor fields `temp`/`hum` while `_flattenTelemetry` looks up
`temperature`/`humidity`, so the strict `=== null` check compares
`undefined` and every slot — sentinel slots included — emits a
temperature and a humidity event whose value is `undefined`. -/
theorem c8_sentinel_suppression_broken :
    parseSignedDecimal [0, 0] 0 = .jsNull ∧
    (∃ im, v5008Parse "V5008Upload/2437871205/TemHum" "2025-01-01T10:00:00.000Z"
        temHumSentinelFrame = some im ∧
      im.sensors = some
        [⟨some 0x0A, [("temp", .jsNull), ("hum", .jsNull)]⟩,
         ⟨some 0x0B, [("temp", .jsNull), ("hum", .jsNull)]⟩,
         ⟨some 0x0C, [("temp", .jsNull), ("hum", .jsNull)]⟩,
         ⟨some 0x0D, [("temp", .jsNull), ("hum", .jsNull)]⟩,
         ⟨some 0x0E, [("temp", .jsNull), ("hum", .jsNull)]⟩,
         ⟨some 0x0F, [("temp", .jsNull), ("hum", .jsNull)]⟩] ∧
      ((normalize (some im) []).1.countP fun e => e.type == "SYS_TELEMETRY") = 12 ∧
      ∀ e ∈ (normalize (some im) []).1, e.value = .scalar .jsUndefined) := by
  refine ⟨rfl, ⟨_, rfl, by rfl, by rfl, ?_⟩⟩
  decide

end IotMw
